import Mathlib

/-!
# Verification of the Goodwill donation scoring and progression engine

Shallow embedding of the scoring, streak, tier, achievement and
leaderboard logic of the repository, together with theorems settling the
specification claims about it.

The embedding follows the source files:
* `goodwill_gym_backend.py` (SQLite-backed backend: `calculate_points`,
  `update_user_tier`, `make_donation`)
* `database.py` (`DatabaseManager.update_gym_leader`, `get_missing_items`)
* `enhanced_backend.py` (in-memory backend: `GameEngine.calculate_points`,
  `GameEngine.update_user_tier`, `GameEngine.check_achievements`,
  `create_donation`)
* `services/points-service/main.py` (`AchievementEngine.check_achievements`)

Python `float` arithmetic is modelled with exact rationals, Python `int(x)`
(truncation toward zero) by `pyInt`, SQL `DATE` values by integer day
numbers and `datetime` values by integer minute timestamps.
-/

namespace Goodwill

/-- Python `int(x)` applied to a non-integral number truncates toward zero. -/
def pyInt (q : ℚ) : ℤ := if 0 ≤ q then ⌊q⌋ else -⌊-q⌋

/-- Tier labels (`UserTier` in the source; the SQLite backend stores the
same four labels as strings). -/
inductive Tier where
  | bronze
  | silver
  | gold
  | platinum
deriving DecidableEq, Repr

/-! ## Gym backend: `goodwill_gym_backend.py` and `database.py` -/

/-- One row of the `item_catalog` table. -/
structure CatalogEntry where
  item_name : String
  base_points : ℤ
  demand_multiplier : ℚ
deriving DecidableEq, Repr

/-- One row of the `missing_items_requests` table (the columns
`calculate_points` and `update_gym_leader` read). -/
structure MissingRequest where
  storage_id : ℤ
  item_name : String
  bonus_points : ℤ
  fulfilled : Bool
deriving DecidableEq, Repr

/-- The dictionary returned by `calculate_points`. -/
structure PointsData where
  base_points : ℤ
  bonus_points : ℤ
  total_points : ℤ
  is_missing_item : Bool
deriving DecidableEq, Repr

/-- `SELECT base_points, demand_multiplier FROM item_catalog WHERE item_name = ?`
(`item_name` is `UNIQUE`, so the first match is the row). -/
def catalogLookup (catalog : List CatalogEntry) (item : String) :
    Option CatalogEntry :=
  catalog.find? (fun e => e.item_name == item)

/-- `SELECT bonus_points FROM missing_items_requests WHERE item_name = ?
AND fulfilled = 0 ORDER BY bonus_points DESC LIMIT 1`: the largest
`bonus_points` among unfulfilled requests for the item.  The query does
not constrain `storage_id`. -/
def missingBonusLookup (requests : List MissingRequest) (item : String) :
    Option ℤ :=
  ((requests.filter (fun r => r.item_name == item && !r.fulfilled)).map
    (fun r => r.bonus_points)).max?

/-- `calculate_points` of `goodwill_gym_backend.py` (lines 95-147).
An item absent from the catalog falls back to base 10, multiplier 1.0. -/
def calculate_points (catalog : List CatalogEntry)
    (requests : List MissingRequest) (item_name : String) (quantity : ℤ)
    (is_missing_item : Bool) : PointsData :=
  let bp : ℤ × ℚ :=
    match catalogLookup catalog item_name with
    | some e => (e.base_points, e.demand_multiplier)
    | none => (10, 1)
  let item_points : ℤ := pyInt ((bp.1 : ℚ) * (quantity : ℚ) * bp.2)
  let bonus_points : ℤ :=
    if is_missing_item then
      match missingBonusLookup requests item_name with
      | some b => b * quantity
      | none => 0
    else 0
  { base_points := item_points
    bonus_points := bonus_points
    total_points := item_points + bonus_points
    is_missing_item := is_missing_item }

/-- The streak update inside `make_donation` (lines 445-458); dates are
day numbers, `today - last` is the difference in calendar days. -/
def updateStreak (last_donation_date : Option ℤ) (today : ℤ)
    (streak_days : ℤ) : ℤ :=
  match last_donation_date with
  | none => 1
  | some last =>
    if today - last = 1 then streak_days + 1
    else if today - last = 0 then streak_days
    else 1

/-- The tier threshold chain of `update_user_tier` (lines 164-173). -/
def computeTier (total_points : ℤ) : Tier :=
  if total_points ≥ 10000 then .platinum
  else if total_points ≥ 5000 then .gold
  else if total_points ≥ 2000 then .silver
  else .bronze

/-- `update_user_tier` (lines 149-186) on an already-loaded user row:
returns the new tier when it differs from the stored one, else `none`
(the caller treats `tier_upgraded = (result is not None)`). -/
def update_user_tier (current_tier : Tier) (total_points : ℤ) :
    Option Tier :=
  let new_tier := computeTier total_points
  if new_tier ≠ current_tier then some new_tier else none

/-- One row of the `users` table (columns read and written by
`make_donation` and `update_user_tier`). -/
structure GymUser where
  id : ℤ
  tier : Tier
  total_points : ℤ
  total_donations : ℤ
  streak_days : ℤ
  last_donation_date : Option ℤ
deriving DecidableEq, Repr

/-- One row of the `storages` table (gym-leader columns). -/
structure GymStorage where
  id : ℤ
  gym_leader_id : Option ℤ
  gym_leader_points : ℤ
deriving DecidableEq, Repr

/-- One row of the `storage_inventory` table. -/
structure InventoryRow where
  storage_id : ℤ
  item_name : String
  current_quantity : ℤ
  min_threshold : ℤ
deriving DecidableEq, Repr

/-- One row of the append-only `donations` ledger. -/
structure DonationRec where
  user_id : ℤ
  storage_id : ℤ
  item_name : String
  quantity : ℤ
  points_awarded : ℤ
  bonus_points : ℤ
  missing_item_bonus : Bool
deriving DecidableEq, Repr

/-- The SQLite database state visible to the gym backend. -/
structure GymDB where
  users : List GymUser
  storages : List GymStorage
  catalog : List CatalogEntry
  inventory : List InventoryRow
  requests : List MissingRequest
  donations : List DonationRec
deriving DecidableEq, Repr

/-- Whether `get_missing_items(storage_id)` lists `item`: an inventory
row of the storage whose `current_quantity <= min_threshold`, inner-joined
with `item_catalog` and `storages` (`database.py` lines 245-265); this is
the `is_missing_item` test of `make_donation` (lines 410-415). -/
def isMissingItem (db : GymDB) (storage_id : ℤ) (item : String) : Bool :=
  db.inventory.any fun si =>
    si.storage_id == storage_id && si.item_name == item &&
    decide (si.current_quantity ≤ si.min_threshold) &&
    (catalogLookup db.catalog si.item_name).isSome &&
    db.storages.any (fun s => s.id == storage_id)

/-- The body of the `DonationCreate` request (lines 58-62); `quantity`
is a plain `int` field defaulting to 1, with no bound declared. -/
structure DonationReq where
  user_id : ℤ
  storage_id : ℤ
  item_name : String
  quantity : ℤ
deriving DecidableEq, Repr

/-- The error kinds `make_donation` can surface. -/
inductive DonationError where
  | NotFound
  | InvalidInput
  | ServerError
deriving DecidableEq, Repr

/-- The first (and only) SQLite transaction of `make_donation`
(lines 398-481): validate user and storage, compute the missing flag and
the points, insert the donation row, update the user's totals, streak and
last-donation date, update inventory, mark matching missing-item
requests fulfilled, then `conn.commit()`.  Unknown user or storage raises
404 before any write.  Returns the committed state together with the
points data and the missing flag. -/
def donationTxn (db : GymDB) (req : DonationReq) (today : ℤ) :
    Except DonationError (GymDB × PointsData × Bool) :=
  match db.users.find? (fun u => u.id == req.user_id) with
  | none => .error .NotFound
  | some user =>
    match db.storages.find? (fun s => s.id == req.storage_id) with
    | none => .error .NotFound
    | some _ =>
      let is_missing := isMissingItem db req.storage_id req.item_name
      let pd := calculate_points db.catalog db.requests req.item_name
        req.quantity is_missing
      let rec_ : DonationRec :=
        { user_id := req.user_id
          storage_id := req.storage_id
          item_name := req.item_name
          quantity := req.quantity
          points_awarded := pd.total_points
          bonus_points := pd.bonus_points
          missing_item_bonus := is_missing }
      let new_streak := updateStreak user.last_donation_date today
        user.streak_days
      let users' := db.users.map fun u =>
        if u.id == req.user_id then
          { u with
            total_points := u.total_points + pd.total_points
            total_donations := u.total_donations + 1
            streak_days := new_streak
            last_donation_date := some today }
        else u
      let inventory' := db.inventory.map fun si =>
        if si.storage_id == req.storage_id && si.item_name == req.item_name
        then { si with current_quantity := si.current_quantity + req.quantity }
        else si
      let requests' :=
        if is_missing then
          db.requests.map fun r =>
            if r.storage_id == req.storage_id &&
               r.item_name == req.item_name && !r.fulfilled
            then { r with fulfilled := true } else r
        else db.requests
      .ok ({ db with
              users := users'
              inventory := inventory'
              requests := requests'
              donations := db.donations ++ [rec_] }, pd, is_missing)

/-- The separate transaction opened by `update_user_tier(user_id)`
(called at line 484, after the donation transaction already committed):
reread the user, recompute the tier, write it back when changed. -/
def tierTxn (db : GymDB) (user_id : ℤ) : GymDB × Option Tier :=
  match db.users.find? (fun u => u.id == user_id) with
  | none => (db, none)
  | some u =>
    match update_user_tier u.tier u.total_points with
    | some nt =>
      ({ db with users := db.users.map fun v =>
          if v.id == user_id then { v with tier := nt } else v }, some nt)
    | none => (db, none)

/-- Per-donor sum of the ledger column `points_awarded`
(`SUM(d.points_awarded)` in `update_gym_leader`). -/
def userSum (ds : List DonationRec) (uid : ℤ) : ℤ :=
  ((ds.filter (fun d => d.user_id == uid)).map
    (fun d => d.points_awarded)).sum

/-- The distinct values of a list in first-appearance order (the `GROUP
BY d.user_id` groups). -/
def firstApp (l : List ℤ) : List ℤ :=
  l.foldl (fun acc a => if a ∈ acc then acc else acc ++ [a]) []

/-- `ORDER BY total_points DESC LIMIT 1` over the per-donor sums.  SQLite
leaves the order among tied sums unspecified; the embedding fixes it as
`List.argmax`, which keeps the first maximal group. -/
def pickLeader (ds : List DonationRec) : Option (ℤ × ℤ) :=
  match (firstApp (ds.map (fun d => d.user_id))).argmax (userSum ds) with
  | some uid => some (uid, userSum ds uid)
  | none => none

/-- The donation rows `update_gym_leader`'s query ranges over: the
donations of the storage, inner-joined with the `users` table. -/
def gymLedger (db : GymDB) (storage_id : ℤ) : List DonationRec :=
  db.donations.filter fun d =>
    d.storage_id == storage_id && db.users.any (fun u => u.id == d.user_id)

/-- `DatabaseManager.update_gym_leader` (`database.py` lines 308-357):
aggregate `SUM(points_awarded)` by donor over the donations of the
storage (joined with existing users), take the maximum, and write the
winner into the `storages` row.  When the storage has no donations the
function returns `None` and writes nothing. -/
def update_gym_leader (db : GymDB) (storage_id : ℤ) :
    GymDB × Option (ℤ × ℤ) :=
  match pickLeader (gymLedger db storage_id) with
  | some (uid, pts) =>
    ({ db with storages := db.storages.map fun s =>
        if s.id == storage_id then
          { s with gym_leader_id := some uid, gym_leader_points := pts }
        else s }, some (uid, pts))
  | none => (db, none)

/-- The sequence of separately committed database states produced by one
`POST /donate` call: the donation transaction (committed at line 481),
then `update_user_tier`'s own transaction (line 484), then the
`update_gym_leader` background task scheduled at line 495 (which runs on
its own connection after the response is sent). -/
def makeDonationStages (db : GymDB) (req : DonationReq) (today : ℤ) :
    Except DonationError (List GymDB) :=
  match donationTxn db req today with
  | .error e => .error e
  | .ok (db1, _, _) =>
    let db2 := (tierTxn db1 req.user_id).1
    let db3 := (update_gym_leader db2 req.storage_id).1
    .ok [db1, db2, db3]

/-! ## Enhanced backend: `enhanced_backend.py` -/

/-- `DonationType`. -/
inductive DonationType where
  | monetary
  | goods
  | time
  | crypto
deriving DecidableEq, Repr

/-- The achievement kinds seeded into `achievements_catalog` by
`_initialize_achievements` (the two kinds never seeded are omitted, as
in the source list).  The catalog keys are fresh UUIDs; since exactly one
entry of each kind is created, the kind identifies the entry. -/
inductive AchType where
  | first_donation
  | generous_giver
  | champion_donor
  | consistent_supporter
  | streak_master
  | crypto_pioneer
deriving DecidableEq, Repr

/-- An `AchievementDefinition`: identifier and point reward. -/
structure AchDef where
  id : AchType
  reward : ℤ
deriving DecidableEq, Repr

/-- The achievement catalog in insertion order, with the `points_reward`
values of `_initialize_achievements` (lines 148-213). -/
def achCatalog : List AchDef :=
  [⟨.first_donation, 100⟩, ⟨.generous_giver, 500⟩,
   ⟨.champion_donor, 1000⟩, ⟨.consistent_supporter, 750⟩,
   ⟨.streak_master, 1500⟩, ⟨.crypto_pioneer, 2000⟩]

/-- The reward of each achievement kind, as a function of the
identifier. -/
def achReward : AchType → ℤ
  | .first_donation => 100
  | .generous_giver => 500
  | .champion_donor => 1000
  | .consistent_supporter => 750
  | .streak_master => 1500
  | .crypto_pioneer => 2000

/-- A `User` record of the enhanced backend.  `unlocked` mirrors
`db.user_achievements[user_id]` (the list consulted and extended by
`check_achievements`).  `last_donation` is a timestamp in minutes. -/
structure EUser where
  user_id : ℤ
  tier : Tier
  total_donations : ℤ
  total_amount : ℚ
  total_points : ℤ
  streak_days : ℤ
  last_donation : Option ℤ
  unlocked : List AchType
deriving DecidableEq, Repr

/-- The dictionary returned by `GameEngine.calculate_points`. -/
structure EPoints where
  base_points : ℤ
  bonus_points : ℤ
  tier_multiplier : ℚ
  streak_bonus : ℤ
  total_points : ℤ
deriving DecidableEq, Repr

/-- A `Donation` record of the enhanced backend (the fields the engine
reads or asserts about). -/
structure EDonation where
  user_id : ℤ
  amount : ℚ
  dtype : DonationType
  points_awarded : ℤ
  base_points : ℤ
  bonus_points : ℤ
  streak_bonus : ℤ
  tier_multiplier : ℚ
deriving DecidableEq, Repr

/-- The `tier_multipliers` table (lines 261-266). -/
def tierMultiplier : Tier → ℚ
  | .bronze => 1
  | .silver => 5 / 4
  | .gold => 3 / 2
  | .platinum => 2

/-- The `type_bonuses` table (lines 270-275). -/
def typeBonus : DonationType → ℚ
  | .monetary => 1
  | .crypto => 3 / 2
  | .goods => 6 / 5
  | .time => 2

/-- `GameEngine.calculate_points` (lines 255-293).  `tier_points` is
computed from the tier multiplier but never used in any total; the
multiplier is only reported back. -/
def eCalculatePoints (amount : ℚ) (user : EUser)
    (dtype : DonationType) : EPoints :=
  let base_points : ℤ := pyInt (amount * 10)
  let tier_multiplier := tierMultiplier user.tier
  let type_bonus := typeBonus dtype
  let streak_bonus : ℤ := min (user.streak_days * 50) 500
  let _tier_points : ℤ := pyInt ((base_points : ℚ) * tier_multiplier)
  let type_points : ℤ := pyInt ((base_points : ℚ) * type_bonus)
  let bonus_points := type_points - base_points + streak_bonus
  { base_points := base_points
    bonus_points := bonus_points
    tier_multiplier := tier_multiplier
    streak_bonus := streak_bonus
    total_points := base_points + bonus_points }

/-- The threshold chain of `GameEngine.update_user_tier`
(lines 296-309): it reads `user.total_amount`, the cumulative donated
dollar amount. -/
def eComputeTier (total_amount : ℚ) : Tier :=
  if total_amount ≥ 2000 then .platinum
  else if total_amount ≥ 500 then .gold
  else if total_amount ≥ 100 then .silver
  else .bronze

/-- `GameEngine.update_user_tier`: mutates the tier and reports whether
it changed. -/
def eUpdateUserTier (u : EUser) : EUser × Bool :=
  let nt := eComputeTier u.total_amount
  ({ u with tier := nt }, u.tier ≠ nt)

/-- `timedelta.days` of an elapsed time given in minutes: floor division
by the 1440 minutes of a day. -/
def tdDays (delta : ℤ) : ℤ := Int.fdiv delta 1440

/-- The calendar day (in UTC, as a day index) containing a minute
timestamp. -/
def calDay (t : ℤ) : ℤ := Int.fdiv t 1440

/-- The streak update of `create_donation` (lines 479-486):
`(now - last).days == 1` increments, `None` or `.days > 1` resets to 1,
anything else (an elapsed time under one full day) leaves the streak
unchanged. -/
def eUpdateStreak (last_donation : Option ℤ) (now : ℤ)
    (streak_days : ℤ) : ℤ :=
  match last_donation with
  | none => 1
  | some last =>
    if tdDays (now - last) = 1 then streak_days + 1
    else if tdDays (now - last) > 1 then 1
    else streak_days

/-- The unlock predicate of each achievement kind
(`check_achievements`, lines 321-334), over the post-update user
statistics and the triggering donation. -/
def achPredicate (a : AchType) (u : EUser) (d : EDonation) : Bool :=
  match a with
  | .first_donation => decide (u.total_donations ≥ 1)
  | .generous_giver => decide (d.amount ≥ 100)
  | .champion_donor => decide (u.total_amount ≥ 500)
  | .consistent_supporter => decide (u.total_donations ≥ 10)
  | .streak_master => decide (u.streak_days ≥ 7)
  | .crypto_pioneer => d.dtype == .crypto

/-- The loop of `GameEngine.check_achievements` (lines 317-341) over a
catalog suffix: skip entries already in the user's unlocked list,
evaluate the predicate, collect newly unlocked identifiers and the sum
of their rewards.  (The source adds each reward to `user.total_points`
inside the loop; no predicate reads `total_points`, so returning the
reward sum to the caller is equivalent.) -/
def checkAux (unlocked : List AchType) (u : EUser) (d : EDonation) :
    List AchDef → List AchType × ℤ → List AchType × ℤ
  | [], acc => acc
  | a :: rest, acc =>
    checkAux unlocked u d rest
      (if a.id ∈ unlocked then acc
       else if achPredicate a.id u d then (acc.1 ++ [a.id], acc.2 + a.reward)
       else acc)

/-- `GameEngine.check_achievements`: the newly unlocked identifiers (in
catalog order) and the total reward granted for them. -/
def check_achievements (unlocked : List AchType) (u : EUser)
    (d : EDonation) : List AchType × ℤ :=
  checkAux unlocked u d achCatalog ([], 0)

/-- Closed form of what one scan over a catalog suffix newly unlocks:
the identifiers not yet unlocked whose predicate holds. -/
def newUnlocks (unlocked : List AchType) (u : EUser) (d : EDonation)
    (cat : List AchDef) : List AchType :=
  (cat.filter fun a => !decide (a.id ∈ unlocked) && achPredicate a.id u d).map
    (fun a => a.id)

/-- The state of the enhanced backend's in-memory `DataStore` that the
donation path touches. -/
structure EState where
  users : List EUser
  donations : List EDonation
deriving DecidableEq, Repr

/-- The body of `DonationCreate` of the enhanced backend (pydantic
validates `amount > 0`). -/
structure EDonReq where
  user_id : ℤ
  amount : ℚ
  dtype : DonationType
deriving DecidableEq, Repr

/-- `create_user` / `DataStore.create_user`: a fresh user starts at
bronze with zero totals and no achievements. -/
def mkEUser (uid : ℤ) : EUser :=
  { user_id := uid
    tier := .bronze
    total_donations := 0
    total_amount := 0
    total_points := 0
    streak_days := 0
    last_donation := none
    unlocked := [] }

/-- The `Donation` record `create_donation` builds from the pre-update
user statistics (lines 456-472). -/
def donationFor (req : EDonReq) (user : EUser) : EDonation :=
  let pi := eCalculatePoints req.amount user req.dtype
  { user_id := req.user_id
    amount := req.amount
    dtype := req.dtype
    points_awarded := pi.total_points
    base_points := pi.base_points
    bonus_points := pi.bonus_points
    streak_bonus := pi.streak_bonus
    tier_multiplier := pi.tier_multiplier }

/-- The user mutations of `create_donation` up to (and including) the
tier recomputation (lines 474-489): add the totals, update streak and
last-donation time, recompute the tier from `total_amount`. -/
def preAchUser (req : EDonReq) (now : ℤ) (user : EUser) : EUser :=
  let pi := eCalculatePoints req.amount user req.dtype
  let u1 := { user with
    total_donations := user.total_donations + 1
    total_amount := user.total_amount + req.amount
    total_points := user.total_points + pi.total_points }
  let u2 := { u1 with
    streak_days := eUpdateStreak u1.last_donation now u1.streak_days
    last_donation := some now }
  (eUpdateUserTier u2).1

/-- All in-place mutations `create_donation` applies to the user object:
the stat/streak/tier updates, then the achievement scan, which extends
the unlocked list and adds the rewards to the point total (line 338). -/
def processUser (req : EDonReq) (now : ℤ) (user : EUser) : EUser :=
  let u3 := preAchUser req now user
  let res := check_achievements u3.unlocked u3 (donationFor req user)
  { u3 with
    total_points := u3.total_points + res.2
    unlocked := u3.unlocked ++ res.1 }

/-- `create_donation` (lines 440-507): validate the amount (pydantic)
and the user, compute points from the pre-update statistics, build the
donation record, apply the user mutations, then append the donation. -/
def create_donation (st : EState) (req : EDonReq) (now : ℤ) :
    Except DonationError (EState × EDonation) :=
  if req.amount ≤ 0 then .error .InvalidInput
  else
    match st.users.find? (fun u => u.user_id == req.user_id) with
    | none => .error .NotFound
    | some user =>
      .ok ({ users := st.users.map fun v =>
               if v.user_id == req.user_id then processUser req now v else v
             donations := st.donations ++ [donationFor req user] },
           donationFor req user)

/-- The operations that build a reachable `DataStore` state: user
creation and donation processing (a rejected donation leaves the state
unchanged — the endpoint raises before mutating). -/
inductive Event where
  | newUser (uid : ℤ)
  | donate (req : EDonReq) (now : ℤ)

/-- Apply one event.  `create_user` rejects duplicate identities, so a
`newUser` for an existing id is a no-op. -/
def applyEvent (st : EState) : Event → EState
  | .newUser uid =>
    if st.users.any (fun u => u.user_id == uid) then st
    else { st with users := st.users ++ [mkEUser uid] }
  | .donate req now =>
    match create_donation st req now with
    | .ok (st', _) => st'
    | .error _ => st

/-- The state after a sequence of events, from the empty store. -/
def runEvents (evs : List Event) : EState :=
  evs.foldl applyEvent ⟨[], []⟩

/-- Sum of `points_awarded` over a user's donation records. -/
def eUserDonationSum (ds : List EDonation) (uid : ℤ) : ℤ :=
  ((ds.filter (fun d => d.user_id == uid)).map
    (fun d => d.points_awarded)).sum

/-- Sum of the rewards of a list of unlocked achievement
identifiers. -/
def rewardSum (l : List AchType) : ℤ := (l.map achReward).sum

/-- The state invariant of the enhanced backend: user ids are unique
(they key the `users` dict), every donation's owner exists, every user's
point total is the sum of their recorded `points_awarded` plus the
rewards of their unlocked achievements, and no unlocked list repeats an
identifier. -/
def EInv (st : EState) : Prop :=
  (st.users.map (fun u => u.user_id)).Nodup ∧
  (∀ d ∈ st.donations, ∃ u ∈ st.users, u.user_id = d.user_id) ∧
  (∀ u ∈ st.users,
    u.total_points =
      eUserDonationSum st.donations u.user_id + rewardSum u.unlocked ∧
    u.unlocked.Nodup)

/-! ## Points service: `services/points-service/main.py` -/

/-- One requirement key/value pair of an achievement definition.
`_check_requirements` has no branch for `city_coverage` or
`neighborhood_rank`, so those requirements never cause a `False`
return. -/
inductive PsReq where
  | donation_count (n : ℤ)
  | single_donation_amount (n : ℚ)
  | unique_locations (n : ℤ)
  | city_coverage (n : ℤ)
  | neighborhood_rank (n : ℤ)
  | daily_streak (n : ℤ)
  | tier (t : String)
  | social_shares (n : ℤ)
  | referrals (n : ℤ)
deriving DecidableEq, Repr

/-- The user statistics document fields `_check_requirements` reads
(missing fields default to 0, the empty list, or no tier). -/
structure PsStats where
  total_donations : ℤ
  unique_locations : ℤ
  current_streak : ℤ
  tier : Option String
  social_shares : ℤ
  referrals : ℤ
  achievements : List String
deriving DecidableEq, Repr

/-- The `recent_activity` fields `_check_requirements` reads. -/
structure PsActivity where
  donation_amount : ℚ
deriving DecidableEq, Repr

/-- One branch of `_check_requirements` (lines 219-254): `False` exactly
when a handled requirement is unmet. -/
def psCheckReq (stats : PsStats) (activity : PsActivity) : PsReq → Bool
  | .donation_count n => decide (stats.total_donations ≥ n)
  | .single_donation_amount n => decide (activity.donation_amount ≥ n)
  | .unique_locations n => decide (stats.unique_locations ≥ n)
  | .city_coverage _ => true
  | .neighborhood_rank _ => true
  | .daily_streak n => decide (stats.current_streak ≥ n)
  | .tier t => stats.tier == some t
  | .social_shares n => decide (stats.social_shares ≥ n)
  | .referrals n => decide (stats.referrals ≥ n)

/-- `_check_requirements`: all requirement entries pass. -/
def psCheckRequirements (reqs : List PsReq) (stats : PsStats)
    (activity : PsActivity) : Bool :=
  reqs.all (psCheckReq stats activity)

/-- One entry of `AchievementEngine.achievement_definitions`. -/
structure PsAchDef where
  id : String
  points : ℤ
  reqs : List PsReq
deriving DecidableEq, Repr

/-- `_initialize_achievements` (lines 61-185): id, points and
requirements of every definition, in insertion order. -/
def psAchievementDefinitions : List PsAchDef :=
  [⟨"first_donation", 500, [.donation_count 1]⟩,
   ⟨"generous_giver", 1000, [.single_donation_amount 100]⟩,
   ⟨"hundred_club", 5000, [.donation_count 100]⟩,
   ⟨"location_explorer", 750, [.unique_locations 5]⟩,
   ⟨"city_champion", 2000, [.city_coverage 100]⟩,
   ⟨"neighborhood_hero", 1500, [.neighborhood_rank 1]⟩,
   ⟨"week_warrior", 800, [.daily_streak 7]⟩,
   ⟨"consistency_king", 3000, [.daily_streak 30]⟩,
   ⟨"silver_status", 0, [.tier "Silver"]⟩,
   ⟨"golden_giver", 0, [.tier "Gold"]⟩,
   ⟨"platinum_plus", 0, [.tier "Platinum"]⟩,
   ⟨"diamond_dynasty", 0, [.tier "Diamond"]⟩,
   ⟨"social_sharer", 500, [.social_shares 10]⟩,
   ⟨"referral_champion", 2500, [.referrals 5]⟩]

/-- `AchievementEngine.check_achievements` (lines 187-217): iterate the
definitions, skip identifiers already in the user's achievement list,
keep those whose requirements are met, and return their identifiers. -/
def psCheckAchievements (stats : PsStats) (activity : PsActivity) :
    List String :=
  ((psAchievementDefinitions.filter fun d =>
      !(stats.achievements.contains d.id) &&
      psCheckRequirements d.reqs stats activity).map (fun d => d.id))

/-! ## Definitions taken from the specification's words

These are NOT translations of the source; they state the formulas the
spec claims, for comparison with the source translations above. -/

/-- Spec formula for per-donor aggregation at a location: the sum of
`points_awarded + bonus_points` over the donor's records there. -/
def specUserSum (ds : List DonationRec) (uid : ℤ) : ℤ :=
  ((ds.filter (fun d => d.user_id == uid)).map
    (fun d => d.points_awarded + d.bonus_points)).sum

/-- Spec formula for the recorded leader of a location: the donor with
the maximal `specUserSum` over the donations at the location, `none`
when there are no donations.  (Tie order does not matter for the
counterexample, which has a strict maximum.) -/
def specLeaderAt (db : GymDB) (storage_id : ℤ) : Option ℤ :=
  let ds := db.donations.filter (fun d => d.storage_id == storage_id)
  (firstApp (ds.map (fun d => d.user_id))).argmax (specUserSum ds)

/-- Spec formula for the missing-item bonus: the highest `bonus_points`
among unfulfilled requests for the `(location, item)` pair, 0 when there
is none. -/
def specMissingBonus (requests : List MissingRequest) (storage_id : ℤ)
    (item : String) : ℤ :=
  (((requests.filter fun r =>
      r.storage_id == storage_id && r.item_name == item && !r.fulfilled).map
    (fun r => r.bonus_points)).max?).getD 0

/-- Spec rule for the streak, over calendar days: no prior date gives 1,
the same day leaves it unchanged, the next day increments, a longer gap
resets to 1. -/
def specStreak (lastDay : Option ℤ) (today : ℤ) (prev : ℤ) : ℤ :=
  match lastDay with
  | none => 1
  | some last =>
    if today - last = 0 then prev
    else if today - last = 1 then prev + 1
    else 1

/-- Spec formula for the user's point total: the sum over the user's
donation records of `points_awarded + bonus_points`, plus the rewards of
the unlocked achievements. -/
def specUserTotal (st : EState) (u : EUser) : ℤ :=
  ((st.donations.filter (fun d => d.user_id == u.user_id)).map
    (fun d => d.points_awarded + d.bonus_points)).sum + rewardSum u.unlocked

/-- The spec's ascending tier threshold table. -/
def tierThresholds : List (Tier × ℤ) :=
  [(.bronze, 0), (.silver, 2000), (.gold, 5000), (.platinum, 10000)]

/-- Spec rule for the tier: the label of the highest threshold of the
ascending table not exceeding the total (bronze when none qualifies). -/
def tierFromTable (total : ℤ) : Tier :=
  (((tierThresholds.filter fun p => decide (p.2 ≤ total)).map
    Prod.fst).getLast?).getD .bronze

/-- The ascending threshold table the enhanced backend actually applies;
its thresholds are cumulative donated dollar amounts, not points. -/
def eTierThresholds : List (Tier × ℚ) :=
  [(.bronze, 0), (.silver, 100), (.gold, 500), (.platinum, 2000)]

/-- Highest amount threshold not exceeding the total donated amount. -/
def eTierFromTable (total_amount : ℚ) : Tier :=
  (((eTierThresholds.filter fun p => decide (p.2 ≤ total_amount)).map
    Prod.fst).getLast?).getD .bronze

/-! ## Concrete scenarios for counterexamples and witnesses -/

/-- A user row with the given id, fresh except for the given points. -/
def someGymUser (uid pts : ℤ) : GymUser :=
  { id := uid, tier := .bronze, total_points := pts, total_donations := 0
    streak_days := 0, last_donation_date := none }

/-- Ledger scenario: donor 1 has one plain donation recorded as
`points_awarded = 100, bonus_points = 0`; donor 2 has one missing-item
donation recorded as `points_awarded = 75` (total including its bonus)
with `bonus_points = 35`. -/
def twoDonorDB : GymDB :=
  { users := [someGymUser 1 100, someGymUser 2 75]
    storages := [⟨1, none, 0⟩]
    catalog := []
    inventory := []
    requests := []
    donations := [⟨1, 1, "a", 1, 100, 0, false⟩, ⟨2, 1, "b", 1, 75, 35, true⟩] }

/-- Missing-item scenario: "Winter Coats" is short at storage 1, and
unfulfilled requests for it exist at storage 1 (bonus 10) and storage 2
(bonus 75). -/
def twoRequestDB : GymDB :=
  { users := [someGymUser 1 0]
    storages := [⟨1, none, 0⟩, ⟨2, none, 0⟩]
    catalog := [⟨"Winter Coats", 25, 2⟩]
    inventory := [⟨1, "Winter Coats", 0, 5⟩]
    requests := [⟨1, "Winter Coats", 10, false⟩, ⟨2, "Winter Coats", 75, false⟩]
    donations := [] }

/-- Threshold-crossing scenario: user 1 holds 1950 points (bronze) and
donates 2 Winter Coats (worth 100 points) at storage 1. -/
def crossingDB : GymDB :=
  { users := [{ someGymUser 1 1950 with total_donations := 3, streak_days := 1 }]
    storages := [⟨1, none, 0⟩]
    catalog := [⟨"Winter Coats", 25, 2⟩]
    inventory := []
    requests := []
    donations := [] }

/-- The donation request of the threshold-crossing scenario. -/
def crossingReq : DonationReq := ⟨1, 1, "Winter Coats", 2⟩

/-- The committed database states of the threshold-crossing donation. -/
def crossingStages : List GymDB :=
  (makeDonationStages crossingDB crossingReq 10).toOption.getD []

/-- The state the donation transaction of the threshold-crossing
scenario commits: points, streak and ledger written, tier and gym leader
untouched. -/
def crossingStage1 : GymDB :=
  { users := [{ id := 1, tier := .bronze, total_points := 2050,
                total_donations := 4, streak_days := 1,
                last_donation_date := some 10 }]
    storages := [⟨1, none, 0⟩]
    catalog := [⟨"Winter Coats", 25, 2⟩]
    inventory := []
    requests := []
    donations := [⟨1, 1, "Winter Coats", 2, 100, 0, false⟩] }

/-- A single unfulfilled request: 75 bonus points per Winter Coat at
storage 1. -/
def oneRequestList : List MissingRequest := [⟨1, "Winter Coats", 75, false⟩]

/-- Enhanced-backend scenario: create user 7, then one $10 goods
donation at time 0. -/
def goodsRun : EState :=
  runEvents [.newUser 7, .donate ⟨7, 10, .goods⟩ 0]

/-- The user record `goodsRun` produces: 120 awarded points (100 base +
20 type bonus) plus the 100-point first-donation reward. -/
def goodsUser : EUser :=
  { user_id := 7, tier := .bronze, total_donations := 1, total_amount := 10
    total_points := 220, streak_days := 1, last_donation := some 0
    unlocked := [.first_donation] }

/-- The donation record `goodsRun` appends: total 120 of which 20 are
bonus points. -/
def goodsDonation : EDonation :=
  { user_id := 7, amount := 10, dtype := .goods, points_awarded := 120
    base_points := 100, bonus_points := 20, streak_bonus := 0
    tier_multiplier := 1 }

/-- The user record after `goodsRun`'s stat/streak/tier updates but
before the achievement scan. -/
def goodsMid : EUser :=
  { user_id := 7, tier := .bronze, total_donations := 1, total_amount := 10
    total_points := 120, streak_days := 1, last_donation := some 0
    unlocked := [] }

/-- A points-service user-statistics document with one achievement
already unlocked. -/
def psStatsEx : PsStats :=
  { total_donations := 1, unique_locations := 0, current_streak := 7
    tier := none, social_shares := 0, referrals := 0
    achievements := ["week_warrior"] }

/-- A points-service activity document for a $10 donation. -/
def psActEx : PsActivity := { donation_amount := 10 }

/-! ## Helper lemmas -/

theorem pyInt_of_nonneg (q : ℚ) (h : 0 ≤ q) : pyInt q = ⌊q⌋ := by
  simp [pyInt, h]

theorem int_max?_eq_some_iff {l : List ℤ} {a : ℤ} :
    l.max? = some a ↔ a ∈ l ∧ ∀ b ∈ l, b ≤ a := by
  haveI : Std.Antisymm (fun (a b : ℤ) => a ≤ b) :=
    ⟨fun h₁ h₂ => le_antisymm h₁ h₂⟩
  exact List.max?_eq_some_iff (fun a => le_refl a) (fun a b => max_choice a b)
    (fun a b c => max_le_iff)

theorem mem_firstAppAux (x : ℤ) :
    ∀ (l acc : List ℤ),
      (x ∈ l.foldl (fun acc a => if a ∈ acc then acc else acc ++ [a]) acc ↔
        x ∈ acc ∨ x ∈ l) := by
  intro l
  induction l with
  | nil => intro acc; simp
  | cons a l ih =>
    intro acc
    rw [List.foldl_cons, ih]
    by_cases h : a ∈ acc
    · simp only [if_pos h, List.mem_cons]
      constructor
      · rintro (hx | hx)
        · exact Or.inl hx
        · exact Or.inr (Or.inr hx)
      · rintro (hx | rfl | hx)
        · exact Or.inl hx
        · exact Or.inl h
        · exact Or.inr hx
    · simp only [if_neg h, List.mem_append, List.mem_singleton, List.mem_cons]
      tauto

theorem mem_firstApp (l : List ℤ) (a : ℤ) : a ∈ firstApp l ↔ a ∈ l := by
  unfold firstApp
  rw [mem_firstAppAux]
  simp

theorem firstApp_ne_nil {l : List ℤ} (h : l ≠ []) : firstApp l ≠ [] := by
  cases l with
  | nil => exact absurd rfl h
  | cons a l =>
    exact List.ne_nil_of_mem ((mem_firstApp _ a).mpr (by simp))

theorem computeTier_eq_tierFromTable (p : ℤ) :
    computeTier p = tierFromTable p := by
  unfold computeTier tierFromTable tierThresholds
  rcases le_or_lt 10000 p with h1 | h1
  · have h2 : (5000:ℤ) ≤ p := by omega
    have h3 : (2000:ℤ) ≤ p := by omega
    have h0 : (0:ℤ) ≤ p := by omega
    simp [h0, h1, h2, h3, ge_iff_le, List.filter]
  · rcases le_or_lt 5000 p with h2 | h2
    · have h3 : (2000:ℤ) ≤ p := by omega
      have h0 : (0:ℤ) ≤ p := by omega
      simp [h0, h1.not_le, h2, h3, ge_iff_le, List.filter]
    · rcases le_or_lt 2000 p with h3 | h3
      · have h0 : (0:ℤ) ≤ p := by omega
        simp [h0, h1.not_le, h2.not_le, h3, ge_iff_le, List.filter]
      · rcases le_or_lt 0 p with h0 | h0
        · simp [h0, h1.not_le, h2.not_le, h3.not_le, ge_iff_le, List.filter]
        · simp [h0.not_le, h1.not_le, h2.not_le, h3.not_le, ge_iff_le,
            List.filter]

theorem eComputeTier_eq_eTierFromTable (a : ℚ) :
    eComputeTier a = eTierFromTable a := by
  unfold eComputeTier eTierFromTable eTierThresholds
  rcases le_or_lt 2000 a with h1 | h1
  · have h2 : (500:ℚ) ≤ a := by linarith
    have h3 : (100:ℚ) ≤ a := by linarith
    have h0 : (0:ℚ) ≤ a := by linarith
    simp [h0, h1, h2, h3, ge_iff_le, List.filter]
  · rcases le_or_lt 500 a with h2 | h2
    · have h3 : (100:ℚ) ≤ a := by linarith
      have h0 : (0:ℚ) ≤ a := by linarith
      simp [h0, h1.not_le, h2, h3, ge_iff_le, List.filter]
    · rcases le_or_lt 100 a with h3 | h3
      · have h0 : (0:ℚ) ≤ a := by linarith
        simp [h0, h1.not_le, h2.not_le, h3, ge_iff_le, List.filter]
      · rcases le_or_lt 0 a with h0 | h0
        · simp [h0, h1.not_le, h2.not_le, h3.not_le, ge_iff_le, List.filter]
        · simp [h0.not_le, h1.not_le, h2.not_le, h3.not_le, ge_iff_le,
            List.filter]

theorem pickLeader_spec {ds : List DonationRec} {uid pts : ℤ}
    (h : pickLeader ds = some (uid, pts)) :
    pts = userSum ds uid ∧ uid ∈ ds.map (fun d => d.user_id) ∧
    ∀ v ∈ ds.map (fun d => d.user_id), userSum ds v ≤ pts := by
  unfold pickLeader at h
  cases ha : (firstApp (ds.map (fun d => d.user_id))).argmax (userSum ds) with
  | none => rw [ha] at h; cases h
  | some u =>
    rw [ha] at h
    simp only [Option.some.injEq, Prod.mk.injEq] at h
    obtain ⟨h1, h2⟩ := h
    have hmem : u ∈ firstApp (ds.map (fun d => d.user_id)) :=
      List.argmax_mem (Option.mem_def.mpr ha)
    refine ⟨by rw [← h1]; exact h2.symm,
      by rw [← h1]; exact (mem_firstApp _ _).mp hmem, ?_⟩
    intro v hv
    have hva : v ∈ firstApp (ds.map (fun d => d.user_id)) :=
      (mem_firstApp _ v).mpr hv
    have hle := not_lt.mp
      (List.not_lt_of_mem_argmax hva (Option.mem_def.mpr ha))
    rw [h2] at hle
    exact hle

theorem pickLeader_isSome {ds : List DonationRec} (h : ds ≠ []) :
    (pickLeader ds).isSome = true := by
  unfold pickLeader
  cases ha : (firstApp (ds.map (fun d => d.user_id))).argmax (userSum ds) with
  | none =>
    rw [List.argmax_eq_none] at ha
    exact absurd ha (firstApp_ne_nil (by simpa using h))
  | some u => rfl

theorem calc_bonus_true (catalog : List CatalogEntry)
    (requests : List MissingRequest) (item : String) (qty : ℤ) :
    (calculate_points catalog requests item qty true).bonus_points =
      match missingBonusLookup requests item with
      | some b => b * qty
      | none => 0 := rfl

theorem calc_total_eq (catalog : List CatalogEntry)
    (requests : List MissingRequest) (item : String) (qty : ℤ)
    (missing : Bool) :
    (calculate_points catalog requests item qty missing).total_points =
      (calculate_points catalog requests item qty missing).base_points +
      (calculate_points catalog requests item qty missing).bonus_points := rfl

/-! ## Claim theorems -/

/-- C5: for every donation of an item present in the catalog (with
non-negative quantity and non-negative catalog values), the base points
equal `floor(base_points * quantity * demand_multiplier)`; without the
missing-item flag the bonus is 0 and the total equals the base. -/
theorem c5_base_points_floor (catalog : List CatalogEntry)
    (requests : List MissingRequest) (item : String) (qty : ℤ)
    (e : CatalogEntry) (hfind : catalogLookup catalog item = some e)
    (hq : 0 ≤ qty) (hb : 0 ≤ e.base_points)
    (hm : 0 ≤ e.demand_multiplier) :
    (calculate_points catalog requests item qty false).base_points =
      ⌊(e.base_points : ℚ) * (qty : ℚ) * e.demand_multiplier⌋ ∧
    (calculate_points catalog requests item qty false).bonus_points = 0 ∧
    (calculate_points catalog requests item qty false).total_points =
      ⌊(e.base_points : ℚ) * (qty : ℚ) * e.demand_multiplier⌋ := by
  have hnn : (0:ℚ) ≤ (e.base_points : ℚ) * (qty : ℚ) * e.demand_multiplier :=
    mul_nonneg (mul_nonneg (by exact_mod_cast hb) (by exact_mod_cast hq)) hm
  unfold calculate_points
  rw [hfind]
  simp [pyInt_of_nonneg _ hnn]

/-- C5 witness: 2 units of base value 25 at demand multiplier 2.0, not
missing, give base 100, bonus 0, total 100. -/
theorem c5_witness :
    (calculate_points [⟨"Winter Coats", 25, 2⟩] [] "Winter Coats" 2
      false).base_points = 100 ∧
    (calculate_points [⟨"Winter Coats", 25, 2⟩] [] "Winter Coats" 2
      false).bonus_points = 0 ∧
    (calculate_points [⟨"Winter Coats", 25, 2⟩] [] "Winter Coats" 2
      false).total_points = 100 := by
  obtain ⟨h1, h2, h3⟩ := c5_base_points_floor [⟨"Winter Coats", 25, 2⟩] []
    "Winter Coats" 2 ⟨"Winter Coats", 25, 2⟩ (by decide) (by decide)
    (by decide) (by norm_num)
  refine ⟨?_, h2, ?_⟩
  · rw [h1]; norm_num
  · rw [h3]; norm_num

/-- C10: the points awarded by the enhanced backend's `calculate_points`
are independent of the donor's tier — two users differing only in the
tier field receive identical base, streak, bonus and total points; the
tier multiplier is merely reported back. -/
theorem c10_tier_independent_points (u : EUser) (t : Tier) (amount : ℚ)
    (dtype : DonationType) :
    (eCalculatePoints amount { u with tier := t } dtype).base_points =
      (eCalculatePoints amount u dtype).base_points ∧
    (eCalculatePoints amount { u with tier := t } dtype).streak_bonus =
      (eCalculatePoints amount u dtype).streak_bonus ∧
    (eCalculatePoints amount { u with tier := t } dtype).bonus_points =
      (eCalculatePoints amount u dtype).bonus_points ∧
    (eCalculatePoints amount { u with tier := t } dtype).total_points =
      (eCalculatePoints amount u dtype).total_points ∧
    (eCalculatePoints amount { u with tier := t } dtype).tier_multiplier =
      tierMultiplier t :=
  ⟨rfl, rfl, rfl, rfl, rfl⟩

/-- C6 amended: the SQLite backend's streak update follows the claimed
calendar-day rule exactly (and a second same-day donation leaves the
streak unchanged), while the enhanced backend counts whole 24-hour
periods of elapsed wall-clock time: it increments only when the elapsed
time is in [24h, 48h) and leaves the streak unchanged whenever less than
24 hours have elapsed, even across a calendar-day boundary. -/
theorem c6_streak_rules (today prev lastTs nowTs streak : ℤ) :
    (∀ lo : Option ℤ, updateStreak lo today prev = specStreak lo today prev) ∧
    updateStreak (some today) today prev = prev ∧
    eUpdateStreak none nowTs streak = 1 ∧
    (tdDays (nowTs - lastTs) = 1 →
      eUpdateStreak (some lastTs) nowTs streak = streak + 1) ∧
    (tdDays (nowTs - lastTs) > 1 →
      eUpdateStreak (some lastTs) nowTs streak = 1) ∧
    (tdDays (nowTs - lastTs) < 1 →
      eUpdateStreak (some lastTs) nowTs streak = streak) := by
  refine ⟨?_, ?_, rfl, ?_, ?_, ?_⟩
  · rintro (_ | last)
    · rfl
    · simp only [updateStreak, specStreak]
      split_ifs <;> omega
  · simp only [updateStreak]
    split_ifs <;> omega
  · intro h; simp only [eUpdateStreak]; split_ifs <;> omega
  · intro h; simp only [eUpdateStreak]; split_ifs <;> omega
  · intro h; simp only [eUpdateStreak]; split_ifs <;> omega

/-- C6 witness: the calendar-day rule on the SQLite backend and the
elapsed-time rule on the enhanced backend, at concrete inputs. -/
theorem c6_witness :
    updateStreak (some 5) 5 3 = 3 ∧
    eUpdateStreak (some 0) 1440 2 = 3 ∧
    eUpdateStreak none 0 0 = 1 := by
  have h := c6_streak_rules 5 3 0 1440 2
  exact ⟨h.2.1, h.2.2.2.1 (by decide), h.2.2.1⟩

/-- C6 counterexample: a donation at 01:00 on the calendar day right
after a 23:00 donation (two hours of elapsed time) must increment the
streak under the claimed calendar-day rule, but the enhanced backend
leaves it unchanged. -/
theorem c6_counterexample :
    eUpdateStreak (some (23 * 60)) (25 * 60) 5 = 5 ∧
    calDay (25 * 60) - calDay (23 * 60) = 1 ∧
    specStreak (some (calDay (23 * 60))) (calDay (25 * 60)) 5 = 6 := by
  decide

/-- C7 amended: in the SQLite backend the tier is the pure threshold
function of the point total described by the ascending table and the
upgrade flag is set exactly on a label change; in the enhanced backend
the tier is the analogous threshold function of the cumulative donated
amount (not of the point total), again with the flag set exactly on a
label change. -/
theorem c7_tier_function (p : ℤ) (cur : Tier) (a : ℚ) (u : EUser) :
    computeTier p = tierFromTable p ∧
    ((update_user_tier cur p).isSome ↔ computeTier p ≠ cur) ∧
    eComputeTier a = eTierFromTable a ∧
    (eUpdateUserTier u).1.tier = eComputeTier u.total_amount ∧
    ((eUpdateUserTier u).2 = true ↔ eComputeTier u.total_amount ≠ u.tier) := by
  refine ⟨computeTier_eq_tierFromTable p, ?_, eComputeTier_eq_eTierFromTable a,
    rfl, ?_⟩
  · unfold update_user_tier
    by_cases h : computeTier p = cur <;> simp [h]
  · simp only [eUpdateUserTier, decide_eq_true_eq]
    exact ne_comm

/-- C7 counterexample: two enhanced-backend users with the same point
total (0) but different cumulative amounts get different tiers, so the
tier computed by `GameEngine.update_user_tier` is not a function of the
point total. -/
theorem c7_counterexample :
    (mkEUser 1).total_points =
      ({ mkEUser 2 with total_amount := 100 } : EUser).total_points ∧
    (eUpdateUserTier (mkEUser 1)).1.tier = Tier.bronze ∧
    (eUpdateUserTier { mkEUser 2 with total_amount := 100 }).1.tier =
      Tier.silver := by
  decide

/-- C8 amended: a request naming an unknown user or an unknown storage
location is rejected as NotFound before any mutation (the validation
queries precede every write in `make_donation`). -/
theorem c8_notfound (db : GymDB) (req : DonationReq) (today : ℤ)
    (h : db.users.find? (fun u => u.id == req.user_id) = none ∨
         db.storages.find? (fun s => s.id == req.storage_id) = none) :
    donationTxn db req today = .error .NotFound := by
  unfold donationTxn
  rcases h with h | h
  · rw [h]
  · cases hf : db.users.find? (fun u => u.id == req.user_id) with
    | none => rfl
    | some u => rw [h]

/-- C8 witness: an unknown user id is rejected as NotFound. -/
theorem c8_witness :
    donationTxn crossingDB ⟨99, 1, "x", 1⟩ 10 = .error .NotFound :=
  c8_notfound crossingDB ⟨99, 1, "x", 1⟩ 10 (Or.inl (by decide))

/-- C8 counterexample: a donation with quantity 0 (and one with a
negative quantity) by a known user at a known storage is accepted, not
rejected as InvalidInput — `DonationCreate.quantity` carries no
positivity constraint and `make_donation` never checks it. -/
theorem c8_counterexample :
    (donationTxn crossingDB ⟨1, 1, "Winter Coats", 0⟩ 10).toOption.isSome =
      true ∧
    (donationTxn crossingDB ⟨1, 1, "Winter Coats", -3⟩ 10).toOption.isSome =
      true := ⟨rfl, rfl⟩

theorem crossingCalc :
    calculate_points crossingDB.catalog crossingDB.requests "Winter Coats" 2
      false = ⟨100, 0, 100, false⟩ := by
  have h : catalogLookup crossingDB.catalog "Winter Coats" =
      some ⟨"Winter Coats", 25, 2⟩ := by decide
  unfold calculate_points
  rw [h]
  norm_num [pyInt]

theorem crossingTxn :
    donationTxn crossingDB crossingReq 10 =
      .ok (crossingStage1, ⟨100, 0, 100, false⟩, false) := by
  have hm : isMissingItem crossingDB crossingReq.storage_id
      crossingReq.item_name = false := by decide
  have hc : calculate_points crossingDB.catalog crossingDB.requests
      crossingReq.item_name crossingReq.quantity false = ⟨100, 0, 100, false⟩ :=
    crossingCalc
  have hu : crossingDB.users.find? (fun u => u.id == crossingReq.user_id) =
      some { id := 1, tier := .bronze, total_points := 1950,
             total_donations := 3, streak_days := 1,
             last_donation_date := none } := by decide
  have hs : crossingDB.storages.find?
      (fun s => s.id == crossingReq.storage_id) = some ⟨1, none, 0⟩ := by
    decide
  simp only [donationTxn, hm, hc, hu, hs]
  rw [Except.ok.injEq]
  decide

/-- C4: the mutations of one donation are not one atomic unit: the
donation insert plus point/streak writes commit first (state 1), the
tier is recomputed in a second transaction (state 2), and the gym-leader
update runs as a post-response background task (state 3).  The first
committed state stores 2050 points with the tier still bronze although
2050 points warrant silver, and with the leaderboard untouched. -/
theorem c4_three_commits :
    crossingStages.length = 3 ∧
    (crossingStages[0]?.map fun s => s.users.map fun u =>
      (u.total_points, u.tier)) = some [(2050, Tier.bronze)] ∧
    (crossingStages[0]?.map fun s => s.donations.length) = some 1 ∧
    (crossingStages[0]?.map fun s => s.storages.map fun st =>
      st.gym_leader_id) = some [none] ∧
    (crossingStages[1]?.map fun s => s.users.map fun u =>
      (u.total_points, u.tier)) = some [(2050, Tier.silver)] ∧
    (crossingStages[2]?.map fun s => s.storages.map fun st =>
      st.gym_leader_id) = some [some 1] ∧
    computeTier 2050 = Tier.silver := by
  have hstages : crossingStages =
      [crossingStage1, (tierTxn crossingStage1 crossingReq.user_id).1,
       (update_gym_leader (tierTxn crossingStage1 crossingReq.user_id).1
         crossingReq.storage_id).1] := by
    simp only [crossingStages, makeDonationStages, crossingTxn]
    rfl
  rw [hstages]
  decide

/-- C2 amended: `update_gym_leader` recomputes from the donation ledger
of the location (the ledger itself is left untouched): when donations
exist it records some donor attaining the maximum per-donor sum of the
ledger column `points_awarded` — a column that already contains each
donation's bonus-inclusive total — together with that maximal sum; the
order among tied donors is whatever the SQL row order yields (the
embedding keeps the first group); when no donations exist it changes
nothing (it does not reset the stored leader to none). -/
theorem c2_leader_recomputation (db : GymDB) (sid : ℤ) :
    (gymLedger db sid = [] → update_gym_leader db sid = (db, none)) ∧
    (gymLedger db sid ≠ [] →
      ∃ uid pts, (update_gym_leader db sid).2 = some (uid, pts) ∧
        pts = userSum (gymLedger db sid) uid ∧
        (∃ d ∈ gymLedger db sid, d.user_id = uid) ∧
        (∀ d ∈ gymLedger db sid,
          userSum (gymLedger db sid) d.user_id ≤ pts) ∧
        (update_gym_leader db sid).1.storages = db.storages.map (fun s =>
          if s.id == sid then
            { s with gym_leader_id := some uid, gym_leader_points := pts }
          else s) ∧
        (update_gym_leader db sid).1.donations = db.donations) := by
  constructor
  · intro hnil
    unfold update_gym_leader
    rw [hnil]
    rfl
  · intro hne
    have hsome := pickLeader_isSome hne
    cases hp : pickLeader (gymLedger db sid) with
    | none => rw [hp] at hsome; cases hsome
    | some pair =>
      obtain ⟨uid, pts⟩ := pair
      obtain ⟨hpts, hmem, hmax⟩ := pickLeader_spec hp
      refine ⟨uid, pts, ?_, hpts, ?_, ?_, ?_, ?_⟩
      · unfold update_gym_leader
        rw [hp]
      · obtain ⟨d, hd, hdu⟩ := List.mem_map.mp hmem
        exact ⟨d, hd, hdu⟩
      · intro d hd
        exact hmax d.user_id (List.mem_map_of_mem _ hd)
      · unfold update_gym_leader
        rw [hp]
      · unfold update_gym_leader
        rw [hp]

/-- C2 witness: at a location with a nonempty ledger the recomputed
leader attains the maximal per-donor `points_awarded` sum. -/
theorem c2_witness :
    gymLedger twoDonorDB 1 ≠ [] ∧
    (∃ uid pts, (update_gym_leader twoDonorDB 1).2 = some (uid, pts) ∧
      pts = userSum (gymLedger twoDonorDB 1) uid ∧
      (∃ d ∈ gymLedger twoDonorDB 1, d.user_id = uid) ∧
      (∀ d ∈ gymLedger twoDonorDB 1,
        userSum (gymLedger twoDonorDB 1) d.user_id ≤ pts) ∧
      (update_gym_leader twoDonorDB 1).1.storages =
        twoDonorDB.storages.map (fun s =>
          if s.id == 1 then
            { s with gym_leader_id := some uid, gym_leader_points := pts }
          else s) ∧
      (update_gym_leader twoDonorDB 1).1.donations = twoDonorDB.donations) :=
  ⟨by decide, (c2_leader_recomputation twoDonorDB 1).2 (by decide)⟩

/-- C2 counterexample: donor 1 has one plain 100-point donation; donor 2
has one donation recorded as 75 total points of which 35 are bonus.  The
claim's formula `sum of points_awarded + bonus_points` makes donor 2 the
leader (110 > 100), but the code sums only `points_awarded` and records
donor 1 (100 > 75). -/
theorem c2_counterexample :
    (update_gym_leader twoDonorDB 1).2 = some (1, 100) ∧
    specLeaderAt twoDonorDB 1 = some 2 ∧
    specUserSum twoDonorDB.donations 2 = 110 ∧
    specUserSum twoDonorDB.donations 1 = 100 := by
  decide

/-- C3 amended: when the missing-item flag is set, the awarded bonus is
the highest `bonus_points` value among unfulfilled requests for the item
across ALL locations (the query does not filter on the storage),
multiplied by the quantity, and the total is base + bonus. -/
theorem c3_missing_bonus (catalog : List CatalogEntry)
    (requests : List MissingRequest) (item : String) (qty : ℤ)
    (r0 : MissingRequest) (hr0 : r0 ∈ requests) (hn : r0.item_name = item)
    (hf : r0.fulfilled = false) :
    ∃ b : ℤ,
      (calculate_points catalog requests item qty true).bonus_points =
        b * qty ∧
      (∃ r ∈ requests, r.item_name = item ∧ r.fulfilled = false ∧
        r.bonus_points = b) ∧
      (∀ r ∈ requests, r.item_name = item → r.fulfilled = false →
        r.bonus_points ≤ b) ∧
      (calculate_points catalog requests item qty true).total_points =
        (calculate_points catalog requests item qty true).base_points +
          b * qty := by
  have hmem : r0.bonus_points ∈
      ((requests.filter fun r => r.item_name == item && !r.fulfilled).map
        (fun r => r.bonus_points)) :=
    List.mem_map_of_mem _ (List.mem_filter.mpr ⟨hr0, by simp [hn, hf]⟩)
  cases hmax : ((requests.filter fun r =>
      r.item_name == item && !r.fulfilled).map (fun r => r.bonus_points)).max?
    with
  | none =>
    rw [List.max?_eq_none_iff] at hmax
    rw [hmax] at hmem
    cases hmem
  | some b =>
    obtain ⟨hbmem, hble⟩ := int_max?_eq_some_iff.mp hmax
    have hlook : missingBonusLookup requests item = some b := by
      unfold missingBonusLookup
      exact hmax
    refine ⟨b, ?_, ?_, ?_, ?_⟩
    · rw [calc_bonus_true, hlook]
    · obtain ⟨r, hr, hrb⟩ := List.mem_map.mp hbmem
      obtain ⟨hrmem, hcond⟩ := List.mem_filter.mp hr
      simp only [Bool.and_eq_true, beq_iff_eq, Bool.not_eq_true'] at hcond
      exact ⟨r, hrmem, hcond.1, hcond.2, hrb⟩
    · intro r hr hri hrf
      exact hble _ (List.mem_map_of_mem _
        (List.mem_filter.mpr ⟨hr, by simp [hri, hrf]⟩))
    · rw [calc_total_eq, calc_bonus_true, hlook]

/-- C3 witness: a single unfulfilled request of 75 bonus points per unit
for quantity 2 yields bonus 150 and total base + 150 (= 250 with base
100). -/
theorem c3_witness :
    (∃ b : ℤ,
      (calculate_points [⟨"Winter Coats", 25, 2⟩] oneRequestList
        "Winter Coats" 2 true).bonus_points = b * 2 ∧
      (∃ r ∈ oneRequestList, r.item_name = "Winter Coats" ∧
        r.fulfilled = false ∧ r.bonus_points = b) ∧
      (∀ r ∈ oneRequestList, r.item_name = "Winter Coats" →
        r.fulfilled = false → r.bonus_points ≤ b) ∧
      (calculate_points [⟨"Winter Coats", 25, 2⟩] oneRequestList
        "Winter Coats" 2 true).total_points =
        (calculate_points [⟨"Winter Coats", 25, 2⟩] oneRequestList
          "Winter Coats" 2 true).base_points + b * 2) ∧
    (calculate_points [⟨"Winter Coats", 25, 2⟩] oneRequestList
      "Winter Coats" 2 true).bonus_points = 150 ∧
    (calculate_points [⟨"Winter Coats", 25, 2⟩] oneRequestList
      "Winter Coats" 2 true).total_points = 250 := by
  refine ⟨c3_missing_bonus [⟨"Winter Coats", 25, 2⟩] oneRequestList
    "Winter Coats" 2 ⟨1, "Winter Coats", 75, false⟩ (by decide) rfl rfl,
    ?_, ?_⟩
  · decide
  · rw [calc_total_eq]
    have hb : (calculate_points [⟨"Winter Coats", 25, 2⟩] oneRequestList
        "Winter Coats" 2 true).bonus_points = 150 := by decide
    have hbase : (calculate_points [⟨"Winter Coats", 25, 2⟩] oneRequestList
        "Winter Coats" 2 true).base_points = 100 := by
      have h : catalogLookup [⟨"Winter Coats", 25, 2⟩] "Winter Coats" =
          some ⟨"Winter Coats", 25, 2⟩ := by decide
      unfold calculate_points
      rw [h]
      norm_num [pyInt]
    rw [hb, hbase]
    norm_num

/-- C3 counterexample: "Winter Coats" is flagged missing at storage 1;
the unfulfilled request at storage 1 carries bonus 10 but a request at
storage 2 carries bonus 75.  The claim requires the bonus for the
(location, item) pair — 10 per unit — but the code awards 75 per unit,
taken from the other location. -/
theorem c3_counterexample :
    isMissingItem twoRequestDB 1 "Winter Coats" = true ∧
    (calculate_points twoRequestDB.catalog twoRequestDB.requests
      "Winter Coats" 1 true).bonus_points = 75 ∧
    specMissingBonus twoRequestDB.requests 1 "Winter Coats" * 1 = 10 := by
  decide

theorem rewardSum_append (l1 l2 : List AchType) :
    rewardSum (l1 ++ l2) = rewardSum l1 + rewardSum l2 := by
  simp [rewardSum]

theorem checkAux_spec (unlocked : List AchType) (u : EUser) (d : EDonation) :
    ∀ cat : List AchDef, (∀ a ∈ cat, achReward a.id = a.reward) →
      ∀ acc : List AchType × ℤ,
        checkAux unlocked u d cat acc =
          (acc.1 ++ newUnlocks unlocked u d cat,
           acc.2 + rewardSum (newUnlocks unlocked u d cat)) := by
  intro cat
  induction cat with
  | nil => intro _ acc; simp [checkAux, newUnlocks, rewardSum]
  | cons a rest ih =>
    intro hrw acc
    have hra : achReward a.id = a.reward := hrw a (by simp)
    have hrest : ∀ b ∈ rest, achReward b.id = b.reward :=
      fun b hb => hrw b (List.mem_cons_of_mem _ hb)
    by_cases h1 : a.id ∈ unlocked
    · have hstep : checkAux unlocked u d (a :: rest) acc =
          checkAux unlocked u d rest acc := by
        simp [checkAux, h1]
      rw [hstep, ih hrest acc]
      simp [newUnlocks, List.filter_cons, h1]
    · by_cases h2 : achPredicate a.id u d = true
      · have hstep : checkAux unlocked u d (a :: rest) acc =
            checkAux unlocked u d rest (acc.1 ++ [a.id], acc.2 + a.reward) := by
          simp [checkAux, h1, h2]
        rw [hstep, ih hrest _]
        simp [newUnlocks, List.filter_cons, h1, h2, rewardSum, hra]
        omega
      · have hstep : checkAux unlocked u d (a :: rest) acc =
            checkAux unlocked u d rest acc := by
          simp [checkAux, h1, h2]
        rw [hstep, ih hrest acc]
        simp [newUnlocks, List.filter_cons, h1, h2]

theorem check_achievements_eq (unl : List AchType) (u : EUser)
    (d : EDonation) :
    check_achievements unl u d =
      (newUnlocks unl u d achCatalog,
       rewardSum (newUnlocks unl u d achCatalog)) := by
  have h := checkAux_spec unl u d achCatalog (by decide) ([], 0)
  simpa [check_achievements] using h

theorem newUnlocks_disjoint (unl : List AchType) (u : EUser)
    (d : EDonation) (cat : List AchDef) :
    ∀ a ∈ newUnlocks unl u d cat, a ∉ unl := by
  intro a ha
  simp only [newUnlocks, List.mem_map, List.mem_filter] at ha
  obtain ⟨x, ⟨_, hcond⟩, rfl⟩ := ha
  simp only [Bool.and_eq_true, Bool.not_eq_true', decide_eq_false_iff_not]
    at hcond
  exact hcond.1

theorem newUnlocks_nodup (unl : List AchType) (u : EUser) (d : EDonation) :
    (newUnlocks unl u d achCatalog).Nodup := by
  have hsub : ((achCatalog.filter fun a =>
      !decide (a.id ∈ unl) && achPredicate a.id u d).map
        (fun a => a.id)).Sublist (achCatalog.map (fun a => a.id)) :=
    (List.filter_sublist _).map _
  exact List.Nodup.sublist hsub (by decide)

theorem eUserDonationSum_append (ds : List EDonation) (d : EDonation)
    (uid : ℤ) :
    eUserDonationSum (ds ++ [d]) uid =
      eUserDonationSum ds uid +
        (if d.user_id == uid then d.points_awarded else 0) := by
  unfold eUserDonationSum
  rw [List.filter_append]
  cases h : d.user_id == uid <;> simp [h]

theorem processUser_user_id (req : EDonReq) (now : ℤ) (v : EUser) :
    (processUser req now v).user_id = v.user_id := rfl

theorem processUser_points (req : EDonReq) (now : ℤ) (v : EUser) :
    (processUser req now v).total_points =
      v.total_points + (eCalculatePoints req.amount v req.dtype).total_points +
        (check_achievements v.unlocked (preAchUser req now v)
          (donationFor req v)).2 := rfl

theorem processUser_unlocked (req : EDonReq) (now : ℤ) (v : EUser) :
    (processUser req now v).unlocked =
      v.unlocked ++ (check_achievements v.unlocked (preAchUser req now v)
        (donationFor req v)).1 := rfl

theorem donationFor_user_id (req : EDonReq) (v : EUser) :
    (donationFor req v).user_id = req.user_id := rfl

theorem donationFor_points (req : EDonReq) (v : EUser) :
    (donationFor req v).points_awarded =
      (eCalculatePoints req.amount v req.dtype).total_points := rfl

theorem einv_init : EInv ⟨[], []⟩ := by
  refine ⟨List.nodup_nil, ?_, ?_⟩ <;> intro x hx <;> cases hx

theorem einv_applyEvent {st : EState} (h : EInv st) (e : Event) :
    EInv (applyEvent st e) := by
  obtain ⟨hids, hdon, husers⟩ := h
  cases e with
  | newUser uid =>
    by_cases hex : st.users.any (fun u => u.user_id == uid) = true
    · simpa [applyEvent, hex] using ⟨hids, hdon, husers⟩
    · have hnotmem : ∀ u ∈ st.users, u.user_id ≠ uid := by
        intro u hu heq
        exact hex (List.any_eq_true.mpr ⟨u, hu, by simp [heq]⟩)
      have happ : applyEvent st (Event.newUser uid) =
          { st with users := st.users ++ [mkEUser uid] } := by
        simp [applyEvent, hex]
      rw [happ]
      refine ⟨?_, ?_, ?_⟩
      · rw [List.map_append, List.nodup_append]
        refine ⟨hids, by simp, ?_⟩
        intro x hx
        obtain ⟨u, hu, rfl⟩ := List.mem_map.mp hx
        simp only [List.map_cons, List.map_nil, List.mem_singleton, mkEUser]
        exact hnotmem u hu
      · intro d hd
        obtain ⟨u, hu, huid2⟩ := hdon d hd
        exact ⟨u, List.mem_append_left _ hu, huid2⟩
      · intro u hu
        rcases List.mem_append.mp hu with hu | hu
        · exact husers u hu
        · have heq : u = mkEUser uid := by simpa using hu
          subst heq
          have hflt : st.donations.filter
              (fun d => d.user_id == uid) = [] := by
            rw [List.filter_eq_nil_iff]
            intro d hd
            simp only [beq_iff_eq]
            intro heq2
            obtain ⟨u2, hu2, hu2d⟩ := hdon d hd
            exact hnotmem u2 hu2 (hu2d.trans heq2)
          constructor
          · simp [mkEUser, eUserDonationSum, hflt, rewardSum]
          · simp [mkEUser]
  | donate req now =>
    simp only [applyEvent]
    cases hc : create_donation st req now with
    | error err => exact ⟨hids, hdon, husers⟩
    | ok pr =>
      obtain ⟨st', don⟩ := pr
      unfold create_donation at hc
      by_cases hamt : req.amount ≤ 0
      · rw [if_pos hamt] at hc; cases hc
      · rw [if_neg hamt] at hc
        cases hfind : st.users.find? (fun u => u.user_id == req.user_id) with
        | none => rw [hfind] at hc; cases hc
        | some user =>
          rw [hfind] at hc
          simp only [Except.ok.injEq, Prod.mk.injEq] at hc
          obtain ⟨hst, hdd⟩ := hc
          subst hst
          have huser_mem : user ∈ st.users := List.mem_of_find?_eq_some hfind
          have huid : user.user_id = req.user_id := by
            simpa using List.find?_some hfind
          have hmapids : ((st.users.map fun v =>
              if v.user_id == req.user_id then processUser req now v
              else v).map (fun u => u.user_id)) =
                st.users.map (fun u => u.user_id) := by
            rw [List.map_map]
            apply List.map_congr_left
            intro v hv
            by_cases hveq : (v.user_id == req.user_id) = true
            · simp [Function.comp, hveq, processUser_user_id]
            · simp [Function.comp, hveq]
          refine ⟨?_, ?_, ?_⟩
          · exact hmapids ▸ hids
          · intro d hd
            rcases List.mem_append.mp hd with hd | hd
            · obtain ⟨u, hu, hud⟩ := hdon d hd
              refine ⟨if u.user_id == req.user_id then processUser req now u
                else u, List.mem_map_of_mem _ hu, ?_⟩
              by_cases hueq : (u.user_id == req.user_id) = true
              · rw [if_pos hueq, processUser_user_id]; exact hud
              · rw [if_neg hueq]; exact hud
            · have heq : d = donationFor req user := by simpa using hd
              subst heq
              refine ⟨if user.user_id == req.user_id then
                processUser req now user else user,
                List.mem_map_of_mem _ huser_mem, ?_⟩
              have hbeq : (user.user_id == req.user_id) = true := by
                simp [huid]
              rw [if_pos hbeq, processUser_user_id, donationFor_user_id]
              exact huid
          · intro w hw
            obtain ⟨v, hv, rfl⟩ := List.mem_map.mp hw
            have hIH := husers v hv
            by_cases hveq : (v.user_id == req.user_id) = true
            · have hvid : v.user_id = req.user_id := by simpa using hveq
              have hvu : v = user :=
                List.inj_on_of_nodup_map hids hv huser_mem
                  (by rw [hvid, huid])
              subst hvu
              rw [if_pos hveq]
              constructor
              · rw [processUser_points, processUser_user_id,
                  eUserDonationSum_append, processUser_unlocked,
                  rewardSum_append, donationFor_user_id, donationFor_points]
                have hself : (req.user_id == v.user_id) = true := by
                  simp [hvid]
                rw [if_pos hself]
                have hsnd : (check_achievements v.unlocked
                    (preAchUser req now v) (donationFor req v)).2 =
                    rewardSum ((check_achievements v.unlocked
                      (preAchUser req now v) (donationFor req v)).1) := by
                  rw [check_achievements_eq]
                rw [hsnd, hIH.1]
                ring
              · rw [processUser_unlocked]
                refine List.Nodup.append hIH.2 ?_ ?_
                · rw [check_achievements_eq]
                  exact newUnlocks_nodup _ _ _
                · intro a ha hb
                  rw [check_achievements_eq] at hb
                  exact newUnlocks_disjoint _ _ _ _ a hb ha
            · rw [if_neg hveq]
              refine ⟨?_, hIH.2⟩
              rw [eUserDonationSum_append]
              have hne : ((donationFor req user).user_id == v.user_id) =
                  false := by
                rw [donationFor_user_id]
                simp only [beq_eq_false_iff_ne, ne_eq]
                intro heq
                exact hveq (by simp [heq.symm])
              rw [hne]
              simpa using hIH.1

theorem einv_foldl :
    ∀ (evs : List Event) (st : EState), EInv st →
      EInv (evs.foldl applyEvent st) := by
  intro evs
  induction evs with
  | nil => intro st h; exact h
  | cons e evs ih => intro st h; exact ih _ (einv_applyEvent h e)

theorem einv_runEvents (evs : List Event) : EInv (runEvents evs) :=
  einv_foldl evs ⟨[], []⟩ einv_init

theorem goodsCalc :
    eCalculatePoints 10 (mkEUser 7) .goods = ⟨100, 20, 1, 0, 120⟩ := by
  norm_num [eCalculatePoints, pyInt, tierMultiplier, typeBonus, mkEUser]

theorem goodsDonationFor :
    donationFor ⟨7, 10, .goods⟩ (mkEUser 7) = goodsDonation := by
  simp only [donationFor, goodsCalc]
  rfl

theorem goodsPreAch :
    preAchUser ⟨7, 10, .goods⟩ 0 (mkEUser 7) = goodsMid := by
  simp only [preAchUser, goodsCalc]
  simp only [mkEUser, eUpdateStreak, eUpdateUserTier, eComputeTier,
    goodsMid]
  norm_num

theorem goodsCheck :
    check_achievements [] goodsMid goodsDonation =
      ([.first_donation], 100) := by
  simp only [check_achievements, checkAux, achCatalog, achPredicate,
    goodsMid, goodsDonation]
  norm_num
  decide

theorem goodsProcess :
    processUser ⟨7, 10, .goods⟩ 0 (mkEUser 7) = goodsUser := by
  simp only [processUser, goodsPreAch, goodsDonationFor]
  rw [show goodsMid.unlocked = [] from rfl, goodsCheck]
  norm_num [goodsMid, goodsUser]

theorem goodsRun_eq : goodsRun = ⟨[goodsUser], [goodsDonation]⟩ := by
  have h2 : applyEvent (⟨[], []⟩ : EState) (Event.newUser 7) =
      ⟨[mkEUser 7], []⟩ := rfl
  have hcd : create_donation ⟨[mkEUser 7], []⟩ ⟨7, 10, .goods⟩ 0 =
      .ok (⟨[goodsUser], [goodsDonation]⟩, goodsDonation) := by
    unfold create_donation
    rw [if_neg (by norm_num)]
    rw [show (⟨[mkEUser 7], []⟩ : EState).users.find?
        (fun u => u.user_id == (⟨7, 10, .goods⟩ : EDonReq).user_id) =
        some (mkEUser 7) from by decide]
    rw [Except.ok.injEq, Prod.mk.injEq]
    constructor
    · rw [EState.mk.injEq]
      constructor
      · simp only [List.map_cons, List.map_nil]
        rw [if_pos (by decide), goodsProcess]
      · simp only [List.nil_append]
        rw [goodsDonationFor]
    · exact goodsDonationFor
  show runEvents [Event.newUser 7, Event.donate ⟨7, 10, .goods⟩ 0] = _
  unfold runEvents
  rw [List.foldl_cons, h2, List.foldl_cons, List.foldl_nil]
  simp only [applyEvent, hcd]

/-- C1 amended: for every sequence of events (user creations and
donations, in any order), every user's `total_points` equals the sum of
`points_awarded` over that user's donation records — a column that
already contains each donation's bonus — plus the rewards of the
achievements they have unlocked. -/
theorem c1_points_invariant (evs : List Event) (u : EUser)
    (hu : u ∈ (runEvents evs).users) :
    u.total_points =
      eUserDonationSum (runEvents evs).donations u.user_id +
        rewardSum u.unlocked :=
  ((einv_runEvents evs).2.2 u hu).1

/-- C1 witness: after one $10 goods donation by a fresh user, the total
220 equals the recorded 120 awarded points plus the 100-point
first-donation reward. -/
theorem c1_witness :
    goodsUser ∈ goodsRun.users ∧
    goodsUser.total_points =
      eUserDonationSum goodsRun.donations goodsUser.user_id +
        rewardSum goodsUser.unlocked := by
  have hmem : goodsUser ∈ goodsRun.users := by rw [goodsRun_eq]; simp
  exact ⟨hmem, c1_points_invariant
    [Event.newUser 7, Event.donate ⟨7, 10, .goods⟩ 0] goodsUser hmem⟩

/-- C1 counterexample: the $10 goods donation is recorded with
`points_awarded = 120` and `bonus_points = 20`, and unlocks the
100-point first-donation achievement.  The user's total is 220, but the
claim's formula `sum of (points_awarded + bonus_points) + rewards`
gives 240 — `points_awarded` already contains the bonus, so the claim
counts it twice. -/
theorem c1_counterexample :
    goodsRun.users = [goodsUser] ∧
    goodsUser.total_points = 220 ∧
    specUserTotal goodsRun goodsUser = 240 := by
  rw [goodsRun_eq]
  exact ⟨rfl, rfl, by decide⟩

/-- C9: an achievement identifier never appears twice in a user's
unlocked set: the set is duplicate-free in every reachable state of the
enhanced backend, both achievement scans skip identifiers already
unlocked, and the points-service scan returns a duplicate-free list
disjoint from the stored achievements. -/
theorem c9_achievement_idempotence :
    (∀ evs : List Event, ∀ u ∈ (runEvents evs).users, u.unlocked.Nodup) ∧
    (∀ (unl : List AchType) (u : EUser) (d : EDonation),
      (check_achievements unl u d).1.Nodup ∧
      ∀ a ∈ (check_achievements unl u d).1, a ∉ unl) ∧
    (∀ (stats : PsStats) (act : PsActivity),
      (psCheckAchievements stats act).Nodup ∧
      ∀ s ∈ psCheckAchievements stats act, s ∉ stats.achievements) := by
  refine ⟨?_, ?_, ?_⟩
  · intro evs u hu
    exact ((einv_runEvents evs).2.2 u hu).2
  · intro unl u d
    rw [check_achievements_eq]
    exact ⟨newUnlocks_nodup unl u d, newUnlocks_disjoint unl u d achCatalog⟩
  · intro stats act
    constructor
    · have hsub : ((psAchievementDefinitions.filter fun d =>
          !(stats.achievements.contains d.id) &&
            psCheckRequirements d.reqs stats act).map
              (fun d => d.id)).Sublist
            (psAchievementDefinitions.map (fun d => d.id)) :=
        (List.filter_sublist _).map _
      exact List.Nodup.sublist hsub (by decide)
    · intro s hs
      simp only [psCheckAchievements, List.mem_map, List.mem_filter] at hs
      obtain ⟨d0, ⟨_, hcond⟩, rfl⟩ := hs
      simp only [Bool.and_eq_true, Bool.not_eq_true'] at hcond
      simpa using hcond.1

/-- C9 witness: the achievement sets and scans of the concrete
scenarios are duplicate-free and skip already-unlocked identifiers. -/
theorem c9_witness :
    goodsUser.unlocked.Nodup ∧
    AchType.first_donation ∉
      (check_achievements [AchType.first_donation] goodsMid
        goodsDonation).1 ∧
    (psCheckAchievements psStatsEx psActEx).Nodup ∧
    "week_warrior" ∉ psCheckAchievements psStatsEx psActEx := by
  have h := c9_achievement_idempotence
  have hmem : goodsUser ∈ goodsRun.users := by rw [goodsRun_eq]; simp
  refine ⟨h.1 [Event.newUser 7, Event.donate ⟨7, 10, .goods⟩ 0]
    goodsUser hmem, ?_, (h.2.2 psStatsEx psActEx).1, ?_⟩
  · intro hmem2
    exact (h.2.1 [AchType.first_donation] goodsMid goodsDonation).2 _
      hmem2 (by simp)
  · intro hmem3
    exact (h.2.2 psStatsEx psActEx).2 _ hmem3 (by simp [psStatsEx])

end Goodwill
